import Mathlib

/-!
# Verification of the HPC Sync remote session & sync orchestration layer

Shallow embedding, in Lean 4, of the parts of the `hpc_ext` VS Code
extension that its specification makes claims about:

* `escapeShellArg` (src/sshUtils.ts, src/shell.ts, src/remoteBrowser.ts)
  together with a model of POSIX shell word parsing;
* `SyncEngine.push` / `pushWithRsync` / `pushWithScp` / `pipeOutput`
  (src/sync.ts), modelled as a pure function from a profile, a dry-run
  flag and an environment (tool availability, process exit behaviour) to
  the observable trace: processes spawned, UI messages shown, status-bar
  states set, and the final outcome;
* `SshSession.ensureAuthenticated` / `listDirectory` / `writeFile`
  (src/sshSession.ts), modelled as explicit state passing over a session
  state (authenticated flag, askpass helper on disk, directory cache),
  with the remote host as an oracle function and wall-clock time as an
  explicit parameter;
* `detectScp` / `clearToolCache` (src/toolDetection.ts);
* the path handling of `doBrowse` (src/remoteBrowser.ts).

Strings are modelled as `List Char` where character-level reasoning is
needed (shell escaping, path manipulation) and as `String` elsewhere.
-/

namespace HpcSync

/-! ## Shell escaping (src/sshUtils.ts `escapeShellArg`)

The TypeScript source is

  function escapeShellArg(arg: string): string \x7b
    return "'" + arg.replace(/'/g, "'\\''") + "'";
  \x7d

i.e. each embedded single quote becomes the four characters
quote-backslash-quote-quote, and the whole result is wrapped in single
quotes. -/

/-- The single-quote character `'` (code point 39). -/
def squote : Char := Char.ofNat 39

/-- The backslash character `\` (code point 92). -/
def bslash : Char := '\\'

/-- Body of `escapeShellArg`: the effect of
`arg.replace(/'/g, "'\\''")` — every single quote is replaced by the
four-character sequence quote, backslash, quote, quote; every other
character is kept. -/
def escBody : List Char → List Char
  | [] => []
  | c :: cs =>
      if c = squote then squote :: bslash :: squote :: squote :: escBody cs
      else c :: escBody cs

/-- `escapeShellArg` from src/sshUtils.ts (the same function appears
verbatim in src/shell.ts and src/remoteBrowser.ts): wrap the replaced
body in single quotes. -/
def escapeShellArg (arg : List Char) : List Char :=
  squote :: escBody arg ++ [squote]

/-! ### A model of POSIX shell word parsing

`shellParseWord s` returns `some w` when `s` is a single shell word
whose literal (expansion-free) value is `w`, and `none` otherwise.
Outside single quotes: a single quote starts a quoted run, a backslash
makes the following character literal, and unquoted shell
metacharacters (whitespace, `$`, backquote, double quote, and the other
POSIX specials, for which parsing a *single literal word* is refused)
yield `none`. Inside single quotes every character except the closing
quote is literal — this is the POSIX single-quote rule the escaping
relies on. -/

/-- Characters that do not stand for themselves in an unquoted context
(POSIX shell metacharacters and expansion triggers); our word parser
refuses them rather than modelling expansion or word splitting. -/
def shellSpecial (c : Char) : Bool :=
  c = ' ' ∨ c = '\t' ∨ c = '\n' ∨ c = '$' ∨ c = Char.ofNat 96 ∨
  c = '"' ∨ c = ';' ∨ c = '&' ∨ c = '|' ∨ c = '<' ∨ c = '>' ∨
  c = '(' ∨ c = ')' ∨ c = '*' ∨ c = '?' ∨ c = '[' ∨ c = '#' ∨ c = '~'

/-- Word parser state machine. The `Bool` is `true` while inside a
single-quoted run; `acc` holds the literal characters read so far, in
reverse. -/
def shellParseAux : Bool → List Char → List Char → Option (List Char)
  | false, [], acc => some acc.reverse
  | false, c :: cs, acc =>
      if c = squote then shellParseAux true cs acc
      else if c = bslash then
        match cs with
        | [] => none
        | d :: ds => shellParseAux false ds (d :: acc)
      else if shellSpecial c then none
      else shellParseAux false cs (c :: acc)
  | true, [], _ => none
  | true, c :: cs, acc =>
      if c = squote then shellParseAux false cs acc
      else shellParseAux true cs (c :: acc)
termination_by _ l _ => l.length

/-- Parse one shell word to its literal value. -/
def shellParseWord (s : List Char) : Option (List Char) :=
  shellParseAux false s []

/-! ## Data model (src/types.ts)

`HpcProfile` as read by the sync engine. `sshUser`, `sshPort` and
`sshIdentityFile` are optional in the source and participate in
truthiness checks, modelled by `Option`. The fields `syncMode`,
`remoteTreeRoot` and `remoteTreeDepth` are not read by any code under
verification and are omitted. -/

/-- A sync profile (src/types.ts `HpcProfile`). -/
structure HpcProfile where
  name : String
  sshHost : String
  sshUser : Option String
  sshPort : Option Nat
  sshIdentityFile : Option String
  remoteProjectDir : String
  localProjectDir : String
  excludePatterns : List String
  deleteOnSync : Bool
deriving Repr, DecidableEq

/-- Status-bar sync state (src/types.ts `SyncState`). -/
inductive SyncState where
  | idle
  | syncing
  | synced
  | dirty
  | error
deriving Repr, DecidableEq

/-! ## Tool detection (src/toolDetection.ts) -/

/-- Result of tool detection (src/toolDetection.ts `ToolInfo`). -/
structure ToolInfo where
  available : Bool
  path : String
  viaWsl : Bool
deriving Repr, DecidableEq

/-- A Node `execFile` failure, reduced to its `code` property
(`some "ENOENT"` when the binary does not exist; `none` models an
error object whose `code` is undefined). -/
structure ExecErr where
  code : Option String
deriving Repr, DecidableEq

/-- Lookup in the module-level `cache` map of src/toolDetection.ts. -/
def toolCacheGet (m : List (String × ToolInfo)) (k : String) : Option ToolInfo :=
  (m.find? (fun kv => kv.1 = k)).map (fun kv => kv.2)

/-- `cache.set` of src/toolDetection.ts (replace any previous binding). -/
def toolCacheSet (m : List (String × ToolInfo)) (k : String) (v : ToolInfo) :
    List (String × ToolInfo) :=
  (k, v) :: m.filter (fun kv => ¬ (kv.1 = k))

/-- `detectScp` from src/toolDetection.ts. `probe` is the outcome of
`execFile('scp', [])`: `none` when scp ran without an `error`, otherwise
the error. The source resolves `!error || error.code !== 'ENOENT'`.
Returns the `ToolInfo`, the updated cache, and whether the probe was
actually executed (`false` on a cache hit). -/
def detectScp (probe : Option ExecErr) (cache : List (String × ToolInfo)) :
    ToolInfo × List (String × ToolInfo) × Bool :=
  match toolCacheGet cache "scp" with
  | some t => (t, cache, false)
  | none =>
      let found : Bool :=
        match probe with
        | none => true
        | some e => ! (e.code == some "ENOENT")
      let info : ToolInfo :=
        if found then { available := true, path := "scp", viaWsl := false }
        else { available := false, path := "", viaWsl := false }
      (info, toolCacheSet cache "scp" info, true)

/-- `clearToolCache` from src/toolDetection.ts: `cache.clear()`. -/
def clearToolCache (_cache : List (String × ToolInfo)) :
    List (String × ToolInfo) :=
  []

/-- The possible results of `detectRsync` (src/toolDetection.ts): the
probe order is plain `rsync` on PATH, then on Windows Git's bundled
rsync, then `wsl rsync`; each success stores the listed path and
WSL flag, and total failure stores `available = false`. -/
def rsyncDetectable (t : ToolInfo) : Prop :=
  t.available = true →
    (t.path = "rsync" ∧ t.viaWsl = false) ∨
    (t.path = "C:\\Program Files\\Git\\usr\\bin\\rsync.exe" ∧ t.viaWsl = false) ∨
    (t.path = "wsl rsync" ∧ t.viaWsl = true)

/-! ## Sync engine (src/sync.ts)

`SyncEngine.push` is modelled as a pure function from the profile, the
dry-run flag, and an environment — whether a transfer is already
active (`this.process`), the two tool-detection results, and how the
spawned child process ends — to its observable behaviour: the processes
spawned, the UI messages shown, the status-bar states set (in order),
and the outcome. Output-channel log lines are not modelled. -/

/-- A spawned child process: command and argument list. -/
structure SpawnRec where
  cmd : String
  args : List String
deriving Repr, DecidableEq

/-- How the single spawned transfer process ends: a `close` event with
an exit code (`none` models the JavaScript `null` exit code of a
process terminated by a signal), or an `error` event (spawn failure). -/
inductive ExitOutcome where
  | closed (code : Option Int)
  | errored (msg : String)
deriving Repr, DecidableEq

/-- The rejection value produced inside `pushWithRsync`/`pushWithScp`
via `pipeOutput`: an error message plus the `killed` property that
`push`'s catch block inspects. Both rejection sites construct plain
`Error` objects, whose `killed` property is undefined (falsy), so the
model always carries `killed = false`. -/
structure PipeErr where
  message : String
  killed : Bool
deriving Repr, DecidableEq

/-- UI messages (`vscode.window.show*Message`) the engine can emit.
`confirmPrompt` stands for a modal confirmation request; it is part of
the vocabulary so that its absence from a trace is expressible. -/
inductive UiEvent where
  | warnMsg (msg : String)
  | errorMsg (msg : String)
  | infoMsg (msg : String)
  | confirmPrompt (msg : String)
deriving Repr, DecidableEq

/-- Whether a UI event is a modal confirmation request. -/
def isConfirm : UiEvent → Bool
  | .confirmPrompt _ => true
  | _ => false

/-- Outcome of one `push` call. -/
inductive PushOutcome where
  | alreadyInProgress
  | noTool
  | dryRunUnsupported
  | completed
  | cancelled
  | failed (msg : String)
deriving Repr, DecidableEq

/-- Environment of one `push` call. -/
structure PushEnv where
  processActive : Bool
  rsync : ToolInfo
  scp : ToolInfo
  exit : ExitOutcome
deriving Repr, DecidableEq

/-- Observable result of one `push` call. -/
structure PushResult where
  outcome : PushOutcome
  spawns : List SpawnRec
  events : List UiEvent
  statusSets : List SyncState
deriving Repr, DecidableEq

/-- JavaScript template interpolation of a nullable exit code:
`some n` prints as the decimal of `n`, `none` (JS `null`) as `"null"`. -/
def jsShowNullable : Option Int → String
  | some n => toString n
  | none => "null"

/-- `localProjectDir.replace(/\\/g, '/')`. -/
def replaceBackslashes (s : String) : String :=
  String.mk (s.data.map (fun c => if c = bslash then '/' else c))

/-- `endsWith('/')` on a string, written on the character list so it
reduces structurally. -/
def lastIsSlash (s : String) : Bool :=
  s.data.getLast? == some '/'

/-- `if (!localDir.endsWith('/')) localDir += '/'` (rsync path). -/
def ensureTrailingSlash (s : String) : String :=
  if lastIsSlash s then s else s ++ "/"

/-- `if (localDir.endsWith('/')) localDir = localDir.slice(0, -1)`
(scp path): drop the final character. -/
def stripTrailingSlash (s : String) : String :=
  if lastIsSlash s then String.mk s.data.dropLast else s

/-- `SyncEngine.buildSshArg`: the `-e` value handed to rsync. -/
def buildSshArg (p : HpcProfile) : String :=
  String.intercalate " "
    (["ssh"]
      ++ (match p.sshPort with
          | some port => ["-p " ++ toString port]
          | none => [])
      ++ (match p.sshIdentityFile with
          | some f => ["-i \"" ++ f ++ "\""]
          | none => [])
      ++ ["-o StrictHostKeyChecking=accept-new"])

/-- `SyncEngine.buildRemoteTarget`: `user@host:remoteDir/`. -/
def buildRemoteTarget (p : HpcProfile) : String :=
  (match p.sshUser with
    | some u => u ++ "@"
    | none => "")
    ++ p.sshHost ++ ":" ++ p.remoteProjectDir ++ "/"

/-- The rsync argument list built by `SyncEngine.pushWithRsync` before
the source/destination are appended. -/
def rsyncArgs (p : HpcProfile) (dryRun : Bool) : List String :=
  ["-avz", "--progress"]
    ++ (if dryRun then ["--dry-run"] else [])
    ++ (if p.deleteOnSync then ["--delete"] else [])
    ++ p.excludePatterns.map (fun pat => "--exclude=" ++ pat)
    ++ ["-e", buildSshArg p]

/-- The process spawned by `SyncEngine.pushWithRsync`: either
`wsl rsync ...` with a `wslpath`-converted source, or the resolved
rsync binary with the normalized local directory. -/
def rsyncSpawn (p : HpcProfile) (rsync : ToolInfo) (dryRun : Bool) : SpawnRec :=
  if rsync.viaWsl then
    { cmd := "wsl"
      args := ["rsync"] ++ rsyncArgs p dryRun
        ++ ["$(wslpath -u " ++ squote.toString ++ p.localProjectDir
              ++ squote.toString ++ ")" ++ "/",
            buildRemoteTarget p] }
  else
    { cmd := rsync.path
      args := rsyncArgs p dryRun
        ++ [ensureTrailingSlash (replaceBackslashes p.localProjectDir),
            buildRemoteTarget p] }

/-- The scp argument list built by `SyncEngine.pushWithScp`. -/
def scpArgs (p : HpcProfile) : List String :=
  ["-r"]
    ++ (match p.sshPort with
        | some port => ["-P", toString port]
        | none => [])
    ++ (match p.sshIdentityFile with
        | some f => ["-i", f]
        | none => [])
    ++ ["-o", "StrictHostKeyChecking=accept-new"]
    ++ [stripTrailingSlash (replaceBackslashes p.localProjectDir) ++ "/*",
        buildRemoteTarget p]

/-- The process spawned by `SyncEngine.pushWithScp`. -/
def scpSpawn (p : HpcProfile) : SpawnRec :=
  { cmd := "scp", args := scpArgs p }

/-- `SyncEngine.pipeOutput`: the `close` handler resolves on exit code
0 and otherwise rejects a fresh `Error` (whose `killed` property is
undefined, i.e. falsy); the `error` handler rejects the spawn error,
which likewise has no `killed` property. -/
def pipeOutput (exit : ExitOutcome) : Except PipeErr Unit :=
  match exit with
  | .closed code =>
      if code = some 0 then .ok ()
      else .error { message := "Process exited with code " ++ jsShowNullable code
                    killed := false }
  | .errored m => .error { message := m, killed := false }

/-- The tail of `push` after a transfer process has been spawned:
await the promise, then either log success (the `this.process` handle
is still set, so the status becomes `Synced`), or run the catch block,
which distinguishes on `err.killed`. `pre` carries UI events emitted
before the spawn. -/
def runTransfer (spawn : SpawnRec) (pre : List UiEvent) (exit : ExitOutcome) :
    PushResult :=
  match pipeOutput exit with
  | .ok _ =>
      { outcome := .completed
        spawns := [spawn]
        events := pre
        statusSets := [SyncState.syncing, SyncState.synced] }
  | .error e =>
      if e.killed then
        { outcome := .cancelled
          spawns := [spawn]
          events := pre
          statusSets := [SyncState.syncing, SyncState.idle] }
      else
        { outcome := .failed e.message
          spawns := [spawn]
          events := pre ++ [.errorMsg ("Sync failed: " ++ e.message)]
          statusSets := [SyncState.syncing, SyncState.error] }

/-- `SyncEngine.push` (src/sync.ts lines 16-66), translated branch by
branch: (1) bail out if a transfer is already active; (2) detect the
tools; (3) error out if neither is available; (4) set the status bar to
`Syncing`; (5) with rsync available run `pushWithRsync`, else with a
dry-run requested warn and return (status back to `Idle`), else warn
about the scp fallback and run `pushWithScp`. -/
def modelPush (p : HpcProfile) (dryRun : Bool) (env : PushEnv) : PushResult :=
  if env.processActive then
    { outcome := .alreadyInProgress
      spawns := []
      events := [.warnMsg "A sync is already in progress. Cancel it first."]
      statusSets := [] }
  else if env.rsync.available = false ∧ env.scp.available = false then
    { outcome := .noTool
      spawns := []
      events := [.errorMsg "Neither rsync nor scp found. Please install rsync or ensure scp is available."]
      statusSets := [SyncState.error] }
  else if env.rsync.available then
    runTransfer (rsyncSpawn p env.rsync dryRun) [] env.exit
  else if dryRun then
    { outcome := .dryRunUnsupported
      spawns := []
      events := [.warnMsg "Dry run is not supported with scp fallback."]
      statusSets := [SyncState.syncing, SyncState.idle] }
  else
    runTransfer (scpSpawn p)
      [.warnMsg "rsync not found, using scp (full copy, not incremental). Exclude patterns will be ignored."]
      env.exit

/-! ## Remote session (src/sshSession.ts)

`SshSession` is modelled by explicit state passing. The remote host is
an oracle `String → String` mapping a directory path to the raw output
of the listing command; wall-clock time (`Date.now()`) is an explicit
`Nat` parameter, with the two `Date.now()` reads inside one
`listDirectory` call modelled as the same instant. Each operation
returns its result, the next session state, and the number of remote
commands issued (`runSshCommand` invocations). -/

/-- A parsed directory entry (src/sshSession.ts `RemoteEntry`). -/
structure RemoteEntry where
  name : String
  isDirectory : Bool
  size : Nat
  mtime : Nat
deriving Repr, DecidableEq

/-- A directory cache entry (src/sshSession.ts `CacheEntry`). -/
structure CacheEntry where
  entries : List RemoteEntry
  timestamp : Nat
deriving Repr, DecidableEq

/-- The cache TTL, `CACHE_TTL_MS = 30_000`. -/
def CACHE_TTL_MS : Nat := 30000

/-- State of an `SshSession`: the `authenticated` flag, whether the
askpass helper file currently exists on disk (`askpassPath` is set and
the file has not been unlinked), and the directory cache. -/
structure SessionState where
  authenticated : Bool
  askpassOnDisk : Bool
  dirCache : List (String × CacheEntry)
deriving Repr, DecidableEq

/-- `dirCache.get`. -/
def cacheGet (m : List (String × CacheEntry)) (k : String) : Option CacheEntry :=
  (m.find? (fun kv => kv.1 = k)).map (fun kv => kv.2)

/-- `dirCache.set` (replace any previous binding). -/
def cacheSet (m : List (String × CacheEntry)) (k : String) (v : CacheEntry) :
    List (String × CacheEntry) :=
  (k, v) :: m.filter (fun kv => ¬ (kv.1 = k))

/-- `dirCache.delete`. -/
def cacheDelete (m : List (String × CacheEntry)) (k : String) :
    List (String × CacheEntry) :=
  m.filter (fun kv => ¬ (kv.1 = k))

/-- Authentication environment of one session: whether key-based auth
succeeds against this target, what the password prompt returns (`none`
models cancellation or an empty input, both falsy), and which passwords
the target accepts. -/
structure AuthEnv where
  keyOk : Bool
  promptResult : Option String
  passOk : String → Bool

/-- The errors `ensureAuthenticated` can throw: the user cancelled the
prompt (`Error('Authentication cancelled')`), or the credential was
rejected (`Error('SSH authentication failed: ...')`, the session's
AuthError). The message interpolation is not modelled. -/
inductive SshError where
  | cancelled
  | authFailed
deriving Repr, DecidableEq

/-- `SshSession.ensureAuthenticated` (src/sshSession.ts): no-op when
already authenticated; otherwise try a key-based `echo ok` (one remote
command); on failure prompt once, throwing on cancellation; with a
password, write the askpass helper, retry `echo ok` with it (a second
remote command), and on failure unlink the helper immediately and
throw the auth error. -/
def ensureAuthenticated (env : AuthEnv) (s : SessionState) :
    Except SshError Unit × SessionState × Nat :=
  if s.authenticated then (.ok (), s, 0)
  else if env.keyOk then (.ok (), { s with authenticated := true }, 1)
  else
    match env.promptResult with
    | none => (.error .cancelled, s, 1)
    | some pw =>
        let s1 := { s with askpassOnDisk := true }
        if env.passOk pw then (.ok (), { s1 with authenticated := true }, 2)
        else (.error .authFailed, { s1 with askpassOnDisk := false }, 2)

/-- `parseInt(x, 10) || 0` as applied to the size and mtime fields of
an `ls` line: the value of the leading decimal digits, `0` when there
are none (the NaN case). -/
def jsParseIntD (s : String) : Nat :=
  (s.data.takeWhile (fun c => c.isDigit)).foldl
    (fun acc c => acc * 10 + (c.toNat - 48)) 0

/-- Parse one line of `ls -la --time-style=+%s` output as in
`SshSession.listDirectory`: skip blank lines, the `total` header,
lines with fewer than 7 whitespace-separated fields, and the `.` and
`..` entries; otherwise read permissions, size, mtime, and the
(space-rejoined) name. -/
def parseLsLine (line : String) : Option RemoteEntry :=
  let trimmed := line.trim
  if trimmed = "" then none
  else if trimmed.startsWith "total" then none
  else
    let parts := (trimmed.split (fun c => c == ' ' ∨ c == '\t' ∨ c == '\r')).filter
      (fun w => ¬ (w = ""))
    if parts.length < 7 then none
    else
      let perms := parts.headD ""
      let size := jsParseIntD (parts.getD 4 "")
      let mtime := jsParseIntD (parts.getD 5 "")
      let name := String.intercalate " " (parts.drop 6)
      if name = "." ∨ name = ".." then none
      else some { name := name, isDirectory := perms.startsWith "d",
                  size := size, mtime := mtime }

/-- The whole listing-parse loop of `SshSession.listDirectory`. -/
def parseLs (raw : String) : List RemoteEntry :=
  (raw.split (fun c => c == '\n')).filterMap parseLsLine

/-- The cache-miss path of `SshSession.listDirectory`: authenticate,
issue the listing command (one more remote command), parse, and store
the entries in the cache under the requested path. -/
def listDirectoryFetch (env : AuthEnv) (remote : String → String) (now : Nat)
    (s : SessionState) (p : String) :
    Except SshError (List RemoteEntry) × SessionState × Nat :=
  match ensureAuthenticated env s with
  | (.error e, s1, n) => (.error e, s1, n)
  | (.ok _, s1, n) =>
      let entries := parseLs (remote p)
      (.ok entries,
        { s1 with dirCache := cacheSet s1.dirCache p { entries := entries, timestamp := now } },
        n + 1)

/-- `SshSession.listDirectory` (src/sshSession.ts lines 45-84 of the
class): a cache entry younger than the TTL is returned with no remote
command at all (the cache check precedes authentication); otherwise
fetch. -/
def listDirectory (env : AuthEnv) (remote : String → String) (now : Nat)
    (s : SessionState) (p : String) :
    Except SshError (List RemoteEntry) × SessionState × Nat :=
  match cacheGet s.dirCache p with
  | some e =>
      if now - e.timestamp < CACHE_TTL_MS then (.ok e.entries, s, 0)
      else listDirectoryFetch env remote now s p
  | none => listDirectoryFetch env remote now s p

/-- The characters before the last `/` of a path (empty when there is
no slash or the only slash is leading): `substring(0, lastIndexOf('/'))`
with JavaScript's clamping of the `-1` no-slash case to the empty
string. -/
def parentChars (p : List Char) : List Char :=
  ((p.reverse.dropWhile (fun c => ! (c == '/'))).tail).reverse

/-- `remotePath.substring(0, remotePath.lastIndexOf('/')) || '/'`
(the parent computation of `SshSession.writeFile`, also the go-up step
of `doBrowse`): the prefix before the last slash, or `/` when that
prefix is empty. -/
def parentOfPath (p : String) : String :=
  if (parentChars p.data).isEmpty then "/" else String.mk (parentChars p.data)

/-- `SshSession.writeFile`: authenticate, issue the base64 write
command (one more remote command), then delete the parent directory's
cache entry before returning. The written bytes do not influence the
cache bookkeeping and are not modelled. -/
def writeFile (env : AuthEnv) (s : SessionState) (p : String) :
    Except SshError Unit × SessionState × Nat :=
  match ensureAuthenticated env s with
  | (.error e, s1, n) => (.error e, s1, n)
  | (.ok _, s1, n) =>
      (.ok (),
        { s1 with dirCache := cacheDelete s1.dirCache (parentOfPath p) },
        n + 1)

/-! ## Remote directory browser (src/remoteBrowser.ts `doBrowse`)

Only the path arithmetic of the navigation loop is modelled: the
initial normalization, the go-up offer and step, and the descend
step. -/

/-- `startsWith('/')` on a string, written on the character list so it
reduces structurally. -/
def headIsSlash (s : String) : Bool :=
  s.data.head? == some '/'

/-- The initial normalization of `doBrowse`: the source comment says
"ensure leading /, no trailing / (except root)" but the code only
prepends a leading slash when missing. -/
def normalizeStartPath (startPath : String) : String :=
  if headIsSlash startPath then startPath else "/" ++ startPath

/-- The go-up action is added to the QuickPick exactly when
`currentPath !== '/'`. -/
def goUpOffered (currentPath : String) : Bool :=
  ! (currentPath == "/")

/-- The go-up step of `doBrowse`: same expression as the `writeFile`
parent computation. -/
def browseGoUp (p : String) : String :=
  parentOfPath p

/-- The descend step of `doBrowse` into a listed subdirectory. -/
def browseDescend (p label : String) : String :=
  if p = "/" then "/" ++ label else p ++ "/" ++ label

/-! ## Concrete fixtures used by counterexamples and witnesses -/

/-- A representative well-formed profile. -/
def sampleProfile : HpcProfile :=
  { name := "hpc"
    sshHost := "cluster.example.org"
    sshUser := some "u"
    sshPort := none
    sshIdentityFile := none
    remoteProjectDir := "/home/u/proj"
    localProjectDir := "/work/proj"
    excludePatterns := []
    deleteOnSync := false }

/-- `sampleProfile` with the remote directory set to the filesystem
root. -/
def rootDirProfile : HpcProfile :=
  { sampleProfile with remoteProjectDir := "/" }

/-- `sampleProfile` with delete-on-sync requested. -/
def deleteProfile : HpcProfile :=
  { sampleProfile with deleteOnSync := true }

/-- rsync found directly on PATH. -/
def rsyncTool : ToolInfo :=
  { available := true, path := "rsync", viaWsl := false }

/-- scp found on PATH. -/
def scpTool : ToolInfo :=
  { available := true, path := "scp", viaWsl := false }

/-- A tool that was not found. -/
def absentTool : ToolInfo :=
  { available := false, path := "", viaWsl := false }

/-- Environment: idle engine, both tools available, transfer exits 0. -/
def envRsyncOk : PushEnv :=
  { processActive := false, rsync := rsyncTool, scp := scpTool,
    exit := .closed (some 0) }

/-- Environment: idle engine, only scp available, transfer exits 0. -/
def envScpOnly : PushEnv :=
  { processActive := false, rsync := absentTool, scp := scpTool,
    exit := .closed (some 0) }

/-- Environment: the transfer process is terminated by the
cancellation signal, so its `close` event carries a `null` exit code. -/
def envKilled : PushEnv :=
  { envRsyncOk with exit := .closed none }

/-- Environment: the transfer process legitimately exits with code
23. -/
def envExit23 : PushEnv :=
  { envRsyncOk with exit := .closed (some 23) }

/-- A session that has already authenticated, with an empty cache. -/
def authedSession : SessionState :=
  { authenticated := true, askpassOnDisk := false, dirCache := [] }

/-- A fresh session. -/
def freshSession : SessionState :=
  { authenticated := false, askpassOnDisk := false, dirCache := [] }

/-- A target whose key-based auth works. -/
def keyEnv : AuthEnv :=
  { keyOk := true, promptResult := none, passOk := fun _ => false }

/-- A target whose key auth fails and which rejects the password the
user supplies at the prompt. -/
def wrongPwEnv : AuthEnv :=
  { keyOk := false, promptResult := some "hunter2", passOk := fun _ => false }

/-- A remote oracle answering every listing with empty output. -/
def emptyRemote : String → String :=
  fun _ => ""

/-- The `execFile` failure for a missing binary. -/
def enoentErr : ExecErr :=
  { code := some "ENOENT" }

/-- A tool cache already holding a positive scp result. -/
def scpHitCache : List (String × ToolInfo) :=
  [("scp", scpTool)]

/-- Step: in the unquoted state, the end of input yields the
accumulated word. -/
theorem parseStep_false_nil (acc : List Char) :
    shellParseAux false [] acc = some acc.reverse := by
  rw [shellParseAux.eq_def]

/-- Step: in the unquoted state, a single quote opens a quoted run. -/
theorem parseStep_false_quote (l acc : List Char) :
    shellParseAux false (squote :: l) acc = shellParseAux true l acc := by
  rw [shellParseAux.eq_def]
  simp

/-- Step: in the unquoted state, a backslash makes the next character
literal. -/
theorem parseStep_false_bslash (d : Char) (l acc : List Char) :
    shellParseAux false (bslash :: d :: l) acc =
      shellParseAux false l (d :: acc) := by
  have h1 : ¬ (bslash = squote) := by decide
  rw [shellParseAux.eq_def]
  simp [h1]

/-- Step: inside a quoted run, a single quote closes it. -/
theorem parseStep_true_quote (l acc : List Char) :
    shellParseAux true (squote :: l) acc = shellParseAux false l acc := by
  rw [shellParseAux.eq_def]
  simp

/-- Step: inside a quoted run, any other character is literal. -/
theorem parseStep_true_other {c : Char} (hc : ¬ (c = squote))
    (l acc : List Char) :
    shellParseAux true (c :: l) acc = shellParseAux true l (c :: acc) := by
  rw [shellParseAux.eq_def]
  simp [hc]

/-- Unfolding `escBody` on an embedded single quote. -/
theorem escBody_cons_quote (cs : List Char) :
    escBody (squote :: cs) = squote :: bslash :: squote :: squote :: escBody cs := by
  simp [escBody]

/-- Unfolding `escBody` on an ordinary character. -/
theorem escBody_cons_other {c : Char} (hc : ¬ (c = squote)) (cs : List Char) :
    escBody (c :: cs) = c :: escBody cs := by
  simp [escBody, hc]

/-- Inside a single-quoted run, consuming the escaped body of `s`
followed by a closing quote appends `s` (reversed) to the accumulator
and returns to the unquoted state. -/
theorem shellParseAux_escBody (s : List Char) :
    ∀ (rest acc : List Char),
      shellParseAux true (escBody s ++ squote :: rest) acc =
        shellParseAux false rest (s.reverse ++ acc) := by
  induction s with
  | nil =>
      intro rest acc
      simp [escBody, parseStep_true_quote]
  | cons c cs ih =>
      intro rest acc
      by_cases hc : c = squote
      · subst hc
        rw [escBody_cons_quote]
        simp only [List.cons_append]
        rw [parseStep_true_quote, parseStep_false_bslash,
          parseStep_false_quote, ih]
        simp
      · rw [escBody_cons_other hc]
        simp only [List.cons_append]
        rw [parseStep_true_other hc, ih]
        simp

/-- Claim C1: for every input string — including strings containing
single quotes, spaces, and leading dashes — `escapeShellArg` produces a
string that the POSIX shell word parser parses back to exactly the
original string. -/
theorem escapeShellArg_roundtrip (arg : List Char) :
    shellParseWord (escapeShellArg arg) = some arg := by
  unfold shellParseWord escapeShellArg
  have h : squote :: escBody arg ++ [squote] =
      squote :: (escBody arg ++ squote :: []) := by simp
  rw [h, parseStep_false_quote, shellParseAux_escBody, parseStep_false_nil]
  simp

/-! ## Sync engine lemmas -/

/-- Both rejection sites of `pipeOutput` build error values whose
`killed` property is falsy. -/
theorem pipeOutput_killed_false (e : ExitOutcome) (err : PipeErr)
    (h : pipeOutput e = .error err) : err.killed = false := by
  cases e with
  | closed code =>
      by_cases hc : code = some 0
      · simp [pipeOutput, hc] at h
      · simp only [pipeOutput, if_neg hc] at h
        injection h with h2
        subst h2
        rfl
  | errored m =>
      simp only [pipeOutput] at h
      injection h with h2
      subst h2
      rfl

/-- `runTransfer` records exactly the one spawned process. -/
theorem runTransfer_spawns (sp : SpawnRec) (pre : List UiEvent)
    (e : ExitOutcome) : (runTransfer sp pre e).spawns = [sp] := by
  cases hpe : pipeOutput e with
  | ok u => simp [runTransfer, hpe]
  | error err =>
      by_cases hk : err.killed = true
      · simp [runTransfer, hpe, hk]
      · simp [runTransfer, hpe, hk]

/-- `runTransfer` never emits a modal confirmation, given that the
pre-spawn events contain none. -/
theorem runTransfer_no_confirm (sp : SpawnRec) (pre : List UiEvent)
    (e : ExitOutcome) (hpre : pre.all (fun ev => ! (isConfirm ev)) = true) :
    ((runTransfer sp pre e).events.all (fun ev => ! (isConfirm ev))) = true := by
  cases hpe : pipeOutput e with
  | ok u => simpa [runTransfer, hpe] using hpre
  | error err =>
      by_cases hk : err.killed = true
      · simpa [runTransfer, hpe, hk] using hpre
      · simp only [runTransfer, hpe]
        rw [if_neg hk]
        simp only [List.all_append, Bool.and_eq_true]
        exact ⟨hpre, rfl⟩

/-- Branch lemma: a push with a transfer already active. -/
theorem modelPush_active (p : HpcProfile) (d : Bool) (env : PushEnv)
    (h : env.processActive = true) :
    modelPush p d env =
      { outcome := .alreadyInProgress
        spawns := []
        events := [.warnMsg "A sync is already in progress. Cancel it first."]
        statusSets := [] } := by
  simp [modelPush, h]

/-- Branch lemma: neither tool available. -/
theorem modelPush_noTool (p : HpcProfile) (d : Bool) (env : PushEnv)
    (h1 : env.processActive = false) (h2 : env.rsync.available = false)
    (h3 : env.scp.available = false) :
    modelPush p d env =
      { outcome := .noTool
        spawns := []
        events := [.errorMsg "Neither rsync nor scp found. Please install rsync or ensure scp is available."]
        statusSets := [SyncState.error] } := by
  simp [modelPush, h1, h2, h3]

/-- Branch lemma: rsync available. -/
theorem modelPush_rsync (p : HpcProfile) (d : Bool) (env : PushEnv)
    (h1 : env.processActive = false) (h2 : env.rsync.available = true) :
    modelPush p d env = runTransfer (rsyncSpawn p env.rsync d) [] env.exit := by
  simp [modelPush, h1, h2]

/-- Branch lemma: scp fallback with a dry run requested. -/
theorem modelPush_scpDry (p : HpcProfile) (env : PushEnv)
    (h1 : env.processActive = false) (h2 : env.rsync.available = false)
    (h3 : env.scp.available = true) :
    modelPush p true env =
      { outcome := .dryRunUnsupported
        spawns := []
        events := [.warnMsg "Dry run is not supported with scp fallback."]
        statusSets := [SyncState.syncing, SyncState.idle] } := by
  simp [modelPush, h1, h2, h3]

/-- Branch lemma: scp fallback, no dry run. -/
theorem modelPush_scp (p : HpcProfile) (env : PushEnv)
    (h1 : env.processActive = false) (h2 : env.rsync.available = false)
    (h3 : env.scp.available = true) :
    modelPush p false env =
      runTransfer (scpSpawn p)
        [.warnMsg "rsync not found, using scp (full copy, not incremental). Exclude patterns will be ignored."]
        env.exit := by
  simp [modelPush, h1, h2, h3]

/-- `push` never emits a modal confirmation on any input. -/
theorem modelPush_no_confirm (p : HpcProfile) (d : Bool) (env : PushEnv) :
    ((modelPush p d env).events.all (fun ev => ! (isConfirm ev))) = true := by
  by_cases h1 : env.processActive = true
  · simp [modelPush_active p d env h1, isConfirm]
  · replace h1 : env.processActive = false := by
      simpa using h1
    by_cases h2 : env.rsync.available = true
    · rw [modelPush_rsync p d env h1 h2]
      exact runTransfer_no_confirm _ _ _ rfl
    · replace h2 : env.rsync.available = false := by
        simpa using h2
      by_cases h3 : env.scp.available = true
      · cases d with
        | true => simp [modelPush_scpDry p env h1 h2 h3, isConfirm]
        | false =>
            rw [modelPush_scp p env h1 h2 h3]
            exact runTransfer_no_confirm _ _ _ rfl
      · replace h3 : env.scp.available = false := by
          simpa using h3
        simp [modelPush_noTool p d env h1 h2 h3, isConfirm]

/-- Claim C2 counterexample: with the remote target directory set to
the filesystem root `/`, a transfer process is spawned and the push
runs to completion — it is not rejected before any process is
spawned. -/
theorem push_root_dir_not_rejected :
    (modelPush rootDirProfile false envRsyncOk).spawns.length = 1 ∧
    (modelPush rootDirProfile false envRsyncOk).outcome = PushOutcome.completed := by
  exact ⟨rfl, rfl⟩

/-- Claim C2 (amended): `push` performs no remote-target-directory
validation at all. The only checks before a transfer process is
spawned are, in order: a transfer already active (push bails out with
nothing spawned), and no tool available (error, nothing spawned). For
every profile — including one whose remote directory is `/` or
unconfigured — an idle engine with rsync available spawns exactly one
transfer process. -/
theorem push_precondition_order_no_dir_check (p : HpcProfile) (d : Bool)
    (env : PushEnv) :
    (env.processActive = true →
      (modelPush p d env).outcome = PushOutcome.alreadyInProgress ∧
      (modelPush p d env).spawns = [])
  ∧ (env.processActive = false → env.rsync.available = false →
      env.scp.available = false →
      (modelPush p d env).outcome = PushOutcome.noTool ∧
      (modelPush p d env).spawns = [])
  ∧ (env.processActive = false → env.rsync.available = true →
      (modelPush p d env).spawns.length = 1) := by
  refine ⟨fun h => ?_, fun h1 h2 h3 => ?_, fun h1 h2 => ?_⟩
  · rw [modelPush_active p d env h]
    exact ⟨rfl, rfl⟩
  · rw [modelPush_noTool p d env h1 h2 h3]
    exact ⟨rfl, rfl⟩
  · rw [modelPush_rsync p d env h1 h2, runTransfer_spawns]
    rfl

/-- Witness for the amended C2 theorem at the root-directory profile. -/
theorem push_precondition_order_no_dir_check_witness :
    (modelPush rootDirProfile false envRsyncOk).spawns.length = 1 :=
  (push_precondition_order_no_dir_check rootDirProfile false envRsyncOk).2.2
    rfl rfl

/-- Claim C3 counterexample: with delete-on-sync requested and no dry
run, `push` spawns rsync with `--delete` immediately — the interaction
trace contains no modal confirmation, and the push runs to
completion rather than waiting on (or being abortable by) a user
response. -/
theorem push_delete_spawns_without_confirmation :
    (modelPush deleteProfile false envRsyncOk).spawns =
      [{ cmd := "rsync"
         args := ["-avz", "--progress", "--delete", "-e",
                  "ssh -o StrictHostKeyChecking=accept-new", "/work/proj/",
                  "u@cluster.example.org:/home/u/proj/"] }] ∧
    ((modelPush deleteProfile false envRsyncOk).events.all
        (fun ev => ! (isConfirm ev))) = true ∧
    (modelPush deleteProfile false envRsyncOk).outcome = PushOutcome.completed := by
  exact ⟨rfl, rfl, rfl⟩

/-- Claim C3 (amended): `push` never requests a confirmation: when the
profile sets delete-on-sync and this is not a dry run, rsync is
spawned with `--delete` unconditionally, and the UI event trace of the
whole push contains no modal confirmation prompt. -/
theorem push_delete_unconditional (p : HpcProfile) (env : PushEnv)
    (h1 : env.processActive = false) (h2 : env.rsync.available = true)
    (h3 : p.deleteOnSync = true) :
    (modelPush p false env).spawns = [rsyncSpawn p env.rsync false]
  ∧ "--delete" ∈ (rsyncSpawn p env.rsync false).args
  ∧ ((modelPush p false env).events.all (fun ev => ! (isConfirm ev))) = true := by
  refine ⟨?_, ?_, modelPush_no_confirm p false env⟩
  · rw [modelPush_rsync p false env h1 h2, runTransfer_spawns]
  · by_cases hw : env.rsync.viaWsl = true
    · simp [rsyncSpawn, hw, rsyncArgs, h3]
    · simp [rsyncSpawn, hw, rsyncArgs, h3]

/-- Witness for the amended C3 theorem. -/
theorem push_delete_unconditional_witness :
    (modelPush deleteProfile false envRsyncOk).spawns =
      [rsyncSpawn deleteProfile envRsyncOk.rsync false]
  ∧ "--delete" ∈ (rsyncSpawn deleteProfile envRsyncOk.rsync false).args
  ∧ ((modelPush deleteProfile false envRsyncOk).events.all
      (fun ev => ! (isConfirm ev))) = true :=
  push_delete_unconditional deleteProfile envRsyncOk rfl rfl rfl

/-- Claim C5: whenever rsync is detected available, `push` performs
the transfer with it and never with scp; whenever only scp is
available and a dry run is requested, `push` returns without spawning
any transfer process and surfaces the dry-run-unsupported warning; and
any scp invocation happens only on a non-dry-run push, with the
dry-run-free scp argument list. -/
theorem push_tool_selection (p : HpcProfile) (d : Bool) (env : PushEnv)
    (hdet : rsyncDetectable env.rsync) :
    (env.rsync.available = true →
      ∀ s ∈ (modelPush p d env).spawns, ¬ (s.cmd = "scp"))
  ∧ (env.processActive = false → env.rsync.available = true →
      (modelPush p d env).spawns = [rsyncSpawn p env.rsync d])
  ∧ (env.processActive = false → env.rsync.available = false →
      env.scp.available = true → d = true →
      (modelPush p d env).outcome = PushOutcome.dryRunUnsupported
      ∧ (modelPush p d env).spawns = []
      ∧ UiEvent.warnMsg "Dry run is not supported with scp fallback." ∈
          (modelPush p d env).events)
  ∧ (∀ s ∈ (modelPush p d env).spawns, s.cmd = "scp" →
      d = false ∧ s.args = scpArgs p) := by
  have hcmd : env.rsync.available = true →
      ¬ ((rsyncSpawn p env.rsync d).cmd = "scp") := by
    intro hav
    rcases hdet hav with ⟨hp, hw⟩ | ⟨hp, hw⟩ | ⟨hp, hw⟩ <;>
      simp [rsyncSpawn, hw, hp]
  refine ⟨fun hav s hs => ?_, fun h1 h2 => ?_, fun h1 h2 h3 hd => ?_,
    fun s hs hcs => ?_⟩
  · by_cases h1 : env.processActive = true
    · rw [modelPush_active p d env h1] at hs
      simp at hs
    · replace h1 : env.processActive = false := by simpa using h1
      rw [modelPush_rsync p d env h1 hav, runTransfer_spawns] at hs
      simp at hs
      subst hs
      exact hcmd hav
  · rw [modelPush_rsync p d env h1 h2, runTransfer_spawns]
  · subst hd
    rw [modelPush_scpDry p env h1 h2 h3]
    exact ⟨rfl, rfl, by simp⟩
  · by_cases h1 : env.processActive = true
    · rw [modelPush_active p d env h1] at hs
      simp at hs
    · replace h1 : env.processActive = false := by simpa using h1
      by_cases h2 : env.rsync.available = true
      · rw [modelPush_rsync p d env h1 h2, runTransfer_spawns] at hs
        simp at hs
        subst hs
        exact absurd hcs (hcmd h2)
      · replace h2 : env.rsync.available = false := by simpa using h2
        by_cases h3 : env.scp.available = true
        · cases d with
          | true =>
              rw [modelPush_scpDry p env h1 h2 h3] at hs
              simp at hs
          | false =>
              rw [modelPush_scp p env h1 h2 h3, runTransfer_spawns] at hs
              simp at hs
              subst hs
              exact ⟨rfl, rfl⟩
        · replace h3 : env.scp.available = false := by simpa using h3
          rw [modelPush_noTool p d env h1 h2 h3] at hs
          simp at hs

/-- Witness for C5: scp-only environment with a dry run requested. -/
theorem push_tool_selection_witness :
    (modelPush sampleProfile true envScpOnly).outcome =
      PushOutcome.dryRunUnsupported
  ∧ (modelPush sampleProfile true envScpOnly).spawns = []
  ∧ UiEvent.warnMsg "Dry run is not supported with scp fallback." ∈
      (modelPush sampleProfile true envScpOnly).events :=
  (push_tool_selection sampleProfile true envScpOnly
      (fun h => absurd h (by decide))).2.2.1
    rfl rfl rfl rfl

/-- Claim C6 counterexample: on the scp fallback with delete-on-sync
requested (no dry run), the one and only process spawned is the scp
copy itself — no command clearing the remote target directory is ever
issued before it. -/
theorem scp_delete_no_clear_step :
    (modelPush deleteProfile false envScpOnly).spawns =
      [{ cmd := "scp"
         args := ["-r", "-o", "StrictHostKeyChecking=accept-new", "/work/proj/*",
                  "u@cluster.example.org:/home/u/proj/"] }] ∧
    (modelPush deleteProfile false envScpOnly).spawns.length = 1 := by
  exact ⟨rfl, rfl⟩

/-- Claim C6 (amended): the scp fallback ignores delete-on-sync
entirely: the only process spawned is the scp copy itself (no remote
clearing step), and the whole push behaves identically whether or not
the profile requests delete-on-sync. -/
theorem scp_fallback_ignores_delete (p : HpcProfile) (env : PushEnv)
    (h1 : env.processActive = false) (h2 : env.rsync.available = false)
    (h3 : env.scp.available = true) :
    (modelPush p false env).spawns = [scpSpawn p]
  ∧ (scpSpawn p).cmd = "scp"
  ∧ modelPush p false env =
      modelPush { p with deleteOnSync := false } false env := by
  refine ⟨?_, rfl, ?_⟩
  · rw [modelPush_scp p env h1 h2 h3, runTransfer_spawns]
  · rw [modelPush_scp p env h1 h2 h3,
      modelPush_scp { p with deleteOnSync := false } env h1 h2 h3]
    simp [scpSpawn, scpArgs, buildRemoteTarget]

/-- Witness for the amended C6 theorem. -/
theorem scp_fallback_ignores_delete_witness :
    (modelPush deleteProfile false envScpOnly).spawns = [scpSpawn deleteProfile]
  ∧ (scpSpawn deleteProfile).cmd = "scp"
  ∧ modelPush deleteProfile false envScpOnly =
      modelPush { deleteProfile with deleteOnSync := false } false envScpOnly :=
  scp_fallback_ignores_delete deleteProfile envScpOnly rfl rfl rfl

/-- Claim C8: evaluating `push` at the failing input. A transfer
process terminated by the cancellation signal closes with a `null`
exit code; `pipeOutput` rejects a fresh `Error` whose `killed`
property is falsy, so `push`'s catch block reports a process failure
(`Sync failed: Process exited with code null`, status `Error`) instead
of the Cancelled outcome with status back to `Idle` — while a process
legitimately exiting non-zero is likewise reported as a process
failure, so the two cases are not distinguished. -/
theorem killed_transfer_reported_as_process_failure :
    (modelPush sampleProfile false envKilled).outcome =
      PushOutcome.failed "Process exited with code null"
  ∧ (modelPush sampleProfile false envKilled).statusSets =
      [SyncState.syncing, SyncState.error]
  ∧ ¬ ((modelPush sampleProfile false envKilled).outcome =
      PushOutcome.cancelled)
  ∧ ¬ ((modelPush sampleProfile false envKilled).statusSets =
      [SyncState.syncing, SyncState.idle])
  ∧ (modelPush sampleProfile false envExit23).outcome =
      PushOutcome.failed "Process exited with code 23" := by
  refine ⟨rfl, rfl, by decide, by decide, rfl⟩

/-! ## Remote session lemmas -/

/-- `ensureAuthenticated` is a no-op on an authenticated session. -/
theorem ensureAuthenticated_of_auth (env : AuthEnv) (s : SessionState)
    (h : s.authenticated = true) :
    ensureAuthenticated env s = (.ok (), s, 0) := by
  simp [ensureAuthenticated, h]

/-- Looking up the key just stored in the directory cache. -/
theorem cacheGet_set_self (m : List (String × CacheEntry)) (k : String)
    (v : CacheEntry) : cacheGet (cacheSet m k v) k = some v := by
  simp [cacheGet, cacheSet]

/-- Looking up a key just deleted from the directory cache. -/
theorem cacheGet_delete_self (m : List (String × CacheEntry)) (k : String) :
    cacheGet (cacheDelete m k) k = none := by
  have h : (cacheDelete m k).find? (fun kv => kv.1 = k) = none := by
    rw [List.find?_eq_none]
    intro x hx
    have hx2 := List.of_mem_filter hx
    simp at hx2 ⊢
    exact hx2
  simp [cacheGet, h]

/-- Cache-miss evaluation of `listDirectory` on an authenticated
session: one remote command, freshly parsed entries, and the entries
stored in the cache stamped with the current time. -/
theorem listDirectory_miss (env : AuthEnv) (remote : String → String)
    (now : Nat) (s : SessionState) (p : String)
    (hauth : s.authenticated = true)
    (hmiss : cacheGet s.dirCache p = none) :
    listDirectory env remote now s p =
      (.ok (parseLs (remote p)),
       { s with dirCache :=
          cacheSet s.dirCache p ({ entries := parseLs (remote p), timestamp := now }) },
       1) := by
  simp [listDirectory, hmiss, listDirectoryFetch,
    ensureAuthenticated_of_auth env s hauth]

/-- Cache-hit evaluation of `listDirectory`: no remote command, cached
entries, state unchanged. -/
theorem listDirectory_hit (env : AuthEnv) (remote : String → String)
    (now : Nat) (s : SessionState) (p : String) (e : CacheEntry)
    (hhit : cacheGet s.dirCache p = some e)
    (hfresh : now - e.timestamp < CACHE_TTL_MS) :
    listDirectory env remote now s p = (.ok e.entries, s, 0) := by
  simp [listDirectory, hhit, hfresh]

/-- Expired-entry evaluation of `listDirectory` on an authenticated
session: a new remote command is issued. -/
theorem listDirectory_stale (env : AuthEnv) (remote : String → String)
    (now : Nat) (s : SessionState) (p : String) (e : CacheEntry)
    (hhit : cacheGet s.dirCache p = some e)
    (hstale : ¬ (now - e.timestamp < CACHE_TTL_MS))
    (hauth : s.authenticated = true) :
    listDirectory env remote now s p =
      (.ok (parseLs (remote p)),
       { s with dirCache :=
          cacheSet s.dirCache p ({ entries := parseLs (remote p), timestamp := now }) },
       1) := by
  simp [listDirectory, hhit, hstale, listDirectoryFetch,
    ensureAuthenticated_of_auth env s hauth]

/-- `writeFile` on an authenticated session: one remote command, and
the parent directory's cache entry deleted in the returned state. -/
theorem writeFile_auth (env : AuthEnv) (s : SessionState) (p : String)
    (hauth : s.authenticated = true) :
    writeFile env s p =
      (.ok (),
       { s with dirCache := cacheDelete s.dirCache (parentOfPath p) },
       1) := by
  simp [writeFile, ensureAuthenticated_of_auth env s hauth]

/-- `parentChars` of a path extended by exactly one slash-free
component is the original path. -/
theorem parentChars_append (pd nd : List Char)
    (hname : ∀ c ∈ nd, ¬ (c = '/')) :
    parentChars (pd ++ '/' :: nd) = pd := by
  unfold parentChars
  have h1 : (pd ++ '/' :: nd).reverse = nd.reverse ++ '/' :: pd.reverse := by
    simp
  rw [h1]
  have h2 : List.dropWhile (fun c => ! (c == '/')) nd.reverse = [] := by
    rw [List.dropWhile_eq_nil_iff]
    intro x hx
    have hx2 := hname x (List.mem_reverse.mp hx)
    simp [hx2]
  rw [List.dropWhile_append, h2]
  simp [List.dropWhile_cons]

/-- The `writeFile` parent computation applied to a file directly
beneath a nonempty directory `p` yields `p`. -/
theorem parentOfPath_append (p name : String) (hp : ¬ (p = ""))
    (hname : ∀ c ∈ name.data, ¬ (c = '/')) :
    parentOfPath (p ++ "/" ++ name) = p := by
  have hdata : (p ++ "/" ++ name).data = p.data ++ '/' :: name.data := by
    simp [String.data_append]
  unfold parentOfPath
  rw [hdata, parentChars_append p.data name.data hname]
  have hd : ¬ (p.data.isEmpty = true) := by
    intro h
    apply hp
    cases p with
    | mk l =>
        simp [List.isEmpty_iff] at h
        subst h
        rfl
  rw [if_neg hd]

/-- Claim C4: directory-listing cache behaviour. Starting from an
authenticated session with no cache entry for `p`: (1) the first
`listDirectory(p)` issues exactly one remote command; (2) a second
call within the 30-second TTL issues no remote command, returns
exactly the cached entries, and leaves the state unchanged; (3) a call
with the TTL expired issues a new remote command; (4) a `writeFile` of
a file directly beneath `p` removes `p`'s cache entry in the state it
returns (before the write completes); and (5-6) a listing of `p`
immediately after that write issues a remote command and returns
freshly fetched post-write data, never the pre-write cached
entries. -/
theorem listDirectory_cache_spec (env : AuthEnv)
    (remote remote2 : String → String) (t1 t2 t3 : Nat)
    (s : SessionState) (p name : String)
    (hauth : s.authenticated = true)
    (hmiss : cacheGet s.dirCache p = none)
    (hfresh : t2 - t1 < CACHE_TTL_MS)
    (hstale : ¬ (t3 - t1 < CACHE_TTL_MS))
    (hp : ¬ (p = ""))
    (hname : ∀ c ∈ name.data, ¬ (c = '/')) :
    (listDirectory env remote t1 s p).2.2 = 1
  ∧ listDirectory env remote2 t2 (listDirectory env remote t1 s p).2.1 p =
      ((listDirectory env remote t1 s p).1,
       (listDirectory env remote t1 s p).2.1, 0)
  ∧ (listDirectory env remote2 t3 (listDirectory env remote t1 s p).2.1 p).2.2 = 1
  ∧ cacheGet (writeFile env (listDirectory env remote t1 s p).2.1
        (p ++ "/" ++ name)).2.1.dirCache p = none
  ∧ (listDirectory env remote2 t2 (writeFile env
        (listDirectory env remote t1 s p).2.1 (p ++ "/" ++ name)).2.1 p).1 =
      .ok (parseLs (remote2 p))
  ∧ (listDirectory env remote2 t2 (writeFile env
        (listDirectory env remote t1 s p).2.1 (p ++ "/" ++ name)).2.1 p).2.2 = 1 := by
  have hfirst := listDirectory_miss env remote t1 s p hauth hmiss
  have h1 : (listDirectory env remote t1 s p).1 = .ok (parseLs (remote p)) := by
    rw [hfirst]
  have h21 : (listDirectory env remote t1 s p).2.1 =
      { s with dirCache :=
          cacheSet s.dirCache p ({ entries := parseLs (remote p), timestamp := t1 }) } := by
    rw [hfirst]
  have h22 : (listDirectory env remote t1 s p).2.2 = 1 := by
    rw [hfirst]
  have hhit1 : cacheGet (cacheSet s.dirCache p
      { entries := parseLs (remote p), timestamp := t1 }) p =
      some { entries := parseLs (remote p), timestamp := t1 } :=
    cacheGet_set_self s.dirCache p _
  have hw := writeFile_auth env
    { s with dirCache :=
        cacheSet s.dirCache p ({ entries := parseLs (remote p), timestamp := t1 }) }
    (p ++ "/" ++ name) hauth
  rw [parentOfPath_append p name hp hname] at hw
  have hw21 : (writeFile env
      { s with dirCache :=
          cacheSet s.dirCache p ({ entries := parseLs (remote p), timestamp := t1 }) }
      (p ++ "/" ++ name)).2.1 =
      { s with dirCache :=
          cacheDelete (cacheSet s.dirCache p
            ({ entries := parseLs (remote p), timestamp := t1 })) p } := by
    rw [hw]
  refine ⟨h22, ?_, ?_, ?_, ?_, ?_⟩
  · rw [h21, h1]
    exact listDirectory_hit env remote2 t2
      ({ s with dirCache :=
          cacheSet s.dirCache p ({ entries := parseLs (remote p), timestamp := t1 }) })
      p ({ entries := parseLs (remote p), timestamp := t1 }) hhit1 hfresh
  · rw [h21]
    rw [listDirectory_stale env remote2 t3
      ({ s with dirCache :=
          cacheSet s.dirCache p ({ entries := parseLs (remote p), timestamp := t1 }) })
      p ({ entries := parseLs (remote p), timestamp := t1 }) hhit1 hstale hauth]
  · rw [h21, hw21]
    exact cacheGet_delete_self _ p
  · rw [h21, hw21]
    rw [listDirectory_miss env remote2 t2
      ({ s with dirCache :=
          cacheDelete (cacheSet s.dirCache p
            ({ entries := parseLs (remote p), timestamp := t1 })) p })
      p hauth (cacheGet_delete_self _ p)]
  · rw [h21, hw21]
    rw [listDirectory_miss env remote2 t2
      ({ s with dirCache :=
          cacheDelete (cacheSet s.dirCache p
            ({ entries := parseLs (remote p), timestamp := t1 })) p })
      p hauth (cacheGet_delete_self _ p)]

/-- Witness for C4 at concrete inputs. -/
theorem listDirectory_cache_spec_witness :
    (listDirectory keyEnv emptyRemote 0 authedSession "/a").2.2 = 1
  ∧ listDirectory keyEnv emptyRemote 10
      (listDirectory keyEnv emptyRemote 0 authedSession "/a").2.1 "/a" =
      ((listDirectory keyEnv emptyRemote 0 authedSession "/a").1,
       (listDirectory keyEnv emptyRemote 0 authedSession "/a").2.1, 0)
  ∧ (listDirectory keyEnv emptyRemote 30000
      (listDirectory keyEnv emptyRemote 0 authedSession "/a").2.1 "/a").2.2 = 1
  ∧ cacheGet (writeFile keyEnv
      (listDirectory keyEnv emptyRemote 0 authedSession "/a").2.1
      ("/a" ++ "/" ++ "f")).2.1.dirCache "/a" = none
  ∧ (listDirectory keyEnv emptyRemote 10 (writeFile keyEnv
      (listDirectory keyEnv emptyRemote 0 authedSession "/a").2.1
      ("/a" ++ "/" ++ "f")).2.1 "/a").1 = .ok (parseLs (emptyRemote "/a"))
  ∧ (listDirectory keyEnv emptyRemote 10 (writeFile keyEnv
      (listDirectory keyEnv emptyRemote 0 authedSession "/a").2.1
      ("/a" ++ "/" ++ "f")).2.1 "/a").2.2 = 1 :=
  listDirectory_cache_spec keyEnv emptyRemote emptyRemote 0 10 30000
    authedSession "/a" "f" rfl rfl (by decide) (by decide) (by decide)
    (by decide)

/-- Claim C7: when key-based auth has failed and the user supplies a
password the target rejects, `ensureAuthenticated` throws the auth
error, the session remains unauthenticated (Failed), and the askpass
helper artifact is deleted from disk before the error propagates; the
directory cache is untouched. -/
theorem ensureAuthenticated_wrong_password (env : AuthEnv)
    (s : SessionState) (pw : String)
    (h0 : s.authenticated = false) (h1 : env.keyOk = false)
    (h2 : env.promptResult = some pw) (h3 : env.passOk pw = false) :
    (ensureAuthenticated env s).1 = .error SshError.authFailed
  ∧ (ensureAuthenticated env s).2.1.authenticated = false
  ∧ (ensureAuthenticated env s).2.1.askpassOnDisk = false
  ∧ (ensureAuthenticated env s).2.1.dirCache = s.dirCache := by
  simp [ensureAuthenticated, h0, h1, h2, h3]

/-- Witness for C7. -/
theorem ensureAuthenticated_wrong_password_witness :
    (ensureAuthenticated wrongPwEnv freshSession).1 = .error SshError.authFailed
  ∧ (ensureAuthenticated wrongPwEnv freshSession).2.1.authenticated = false
  ∧ (ensureAuthenticated wrongPwEnv freshSession).2.1.askpassOnDisk = false
  ∧ (ensureAuthenticated wrongPwEnv freshSession).2.1.dirCache =
      freshSession.dirCache :=
  ensureAuthenticated_wrong_password wrongPwEnv freshSession "hunter2"
    rfl rfl rfl rfl

/-! ## Tool detection lemmas -/

/-- Looking up the tool just stored in the tool cache. -/
theorem toolCacheGet_set_self (m : List (String × ToolInfo)) (k : String)
    (v : ToolInfo) : toolCacheGet (toolCacheSet m k v) k = some v := by
  simp [toolCacheGet, toolCacheSet]

/-- Claim C10: `detectScp` reports scp available exactly when the
probe did not fail with ENOENT — no error at all, or an error whose
`code` differs from `'ENOENT'`, both yield available — and the result
is cached: a cache hit is returned as-is with no probe executed,
regardless of what a probe would now return, until `clearToolCache`
empties the cache, after which the next call probes again. -/
theorem detectScp_spec (probe probe2 : Option ExecErr) (e : ExecErr)
    (cacheM cacheH : List (String × ToolInfo)) (t : ToolInfo)
    (hmiss : toolCacheGet cacheM "scp" = none)
    (hhit : toolCacheGet cacheH "scp" = some t) :
    ((detectScp none cacheM).1.available = true)
  ∧ (probe = some e →
      ((detectScp probe cacheM).1.available = true ↔
        ¬ (e.code = some "ENOENT")))
  ∧ ((detectScp probe cacheM).2.2 = true
      ∧ toolCacheGet (detectScp probe cacheM).2.1 "scp" =
          some (detectScp probe cacheM).1)
  ∧ (detectScp probe2 cacheH = (t, cacheH, false))
  ∧ (toolCacheGet (clearToolCache cacheH) "scp" = none
      ∧ (detectScp probe (clearToolCache cacheH)).2.2 = true) := by
  refine ⟨?_, ?_, ⟨?_, ?_⟩, ?_, ⟨rfl, ?_⟩⟩
  · simp [detectScp, hmiss]
  · intro hpe
    subst hpe
    by_cases he : e.code = some "ENOENT"
    · simp [detectScp, hmiss, he]
    · simp [detectScp, hmiss, he]
  · simp [detectScp, hmiss]
  · simp only [detectScp, hmiss]
    exact toolCacheGet_set_self cacheM "scp" _
  · simp [detectScp, hhit]
  · simp [detectScp, clearToolCache, toolCacheGet]

/-- Witness for C10. -/
theorem detectScp_spec_witness :
    ((detectScp none ([] : List (String × ToolInfo))).1.available = true)
  ∧ (some enoentErr = some enoentErr →
      ((detectScp (some enoentErr) ([] : List (String × ToolInfo))).1.available = true ↔
        ¬ (enoentErr.code = some "ENOENT")))
  ∧ ((detectScp (some enoentErr) ([] : List (String × ToolInfo))).2.2 = true
      ∧ toolCacheGet (detectScp (some enoentErr) ([] : List (String × ToolInfo))).2.1 "scp" =
          some (detectScp (some enoentErr) ([] : List (String × ToolInfo))).1)
  ∧ (detectScp none scpHitCache = (scpTool, scpHitCache, false))
  ∧ (toolCacheGet (clearToolCache scpHitCache) "scp" = none
      ∧ (detectScp (some enoentErr) (clearToolCache scpHitCache)).2.2 = true) :=
  detectScp_spec (some enoentErr) none enoentErr [] scpHitCache scpTool
    rfl rfl

/-- Claim C9: evaluating the browser's path handling at the failing
input. The initial normalization of `doBrowse` only ensures a leading
slash; a start path with a trailing slash, such as `/home/u/`, enters
the navigation loop unchanged — still ending in `/` while not being
the root — contradicting the claimed no-trailing-slash invariant (and
the code's own normalization comment). The go-up action is offered for
it, as for every non-root path. -/
theorem browse_start_keeps_trailing_slash :
    normalizeStartPath "/home/u/" = "/home/u/"
  ∧ lastIsSlash (normalizeStartPath "/home/u/") = true
  ∧ ¬ (normalizeStartPath "/home/u/" = "/")
  ∧ goUpOffered (normalizeStartPath "/home/u/") = true := by
  refine ⟨rfl, rfl, by decide, rfl⟩

end HpcSync
